import Mathlib

/-!
Verification of the obesity-prediction Streamlit tool (`src/AI.py`).

The script is shallowly embedded here: Python floats are modelled as
rationals (`ℚ`), the pandas single-row `DataFrame` as an association list
from column names to values, column reindexing (`df_input[expected_cols]`)
as an `Option`-returning selection, and fallible library calls
(`joblib.load`, `scaler.transform`, `model.predict_proba`, CSV reading)
as `Except String`-valued functions supplied by the environment.
-/

namespace ObesityTool

/-- `whr = wc / hc if hc != 0 else 0` (AI.py line 121; same expression as
`whr_display` on line 97). -/
def whr (wc hc : ℚ) : ℚ := if hc ≠ 0 then wc / hc else 0

/-- The single-row record assembled on AI.py lines 125-135, as an ordered
association list (the dict insertion order of the source). -/
def dataRecord (age ropeSkip reaction run50m hc gender wc whrVal cc : ℚ) :
    List (String × ℚ) :=
  [("Age", age), ("RopeSkip", ropeSkip), ("Reaction", reaction),
   ("Run50m", run50m), ("HC", hc), ("Gender", gender), ("WC", wc),
   ("WHR", whrVal), ("CC", cc)]

/-- Column lookup in an association-list row (the lookup pandas performs
for each requested column).  Returns the first binding of the key. -/
def findVal (k : String) : List (String × ℚ) → Option ℚ
  | [] => none
  | (k', v) :: rest => if k' = k then some v else findVal k rest

/-- `df_input = df_input[expected_cols]` (AI.py line 139): select the
columns named in `cols`, in that order; `none` models the `KeyError`
pandas raises when a requested column is missing. -/
def reindex (cols : List String) (row : List (String × ℚ)) :
    Option (List (String × ℚ)) :=
  match cols with
  | [] => some []
  | c :: cs =>
    match findVal c row, reindex cs row with
    | some v, some rest => some ((c, v) :: rest)
    | _, _ => none

/-- The training column order documented in the comment on AI.py line 124,
which is the header order of `ready_train.csv`. -/
def trainCols : List String :=
  ["Age", "RopeSkip", "Reaction", "Run50m", "HC", "Gender", "WC", "WHR", "CC"]

/-- `status_text` (AI.py line 153): the risk label shown on the result
card, chosen by the strict `prob > 0.5` comparison. -/
def statusText (prob : ℚ) : String :=
  if prob > 1/2 then "高风险 (High Risk)" else "低风险 (Low Risk)"

/-- `risk_percent = prob * 100` (AI.py line 145). -/
def riskPercent (prob : ℚ) : ℚ := prob * 100

/-- One canned advisory sentence from the attribution block
(AI.py lines 179-182).  Each constructor stands for one of the four
f-string messages, carrying the value the message interpolates. -/
inductive Advisory where
  | waist (wc : ℚ)
  | ratio (whrVal : ℚ)
  | rope (ropeSkip : ℚ)
  | sprint (run50m : ℚ)
deriving DecidableEq, Repr

/-- The `reasons` list built on AI.py lines 178-182: four independent
`if` statements, each appending one advisory when its threshold fires. -/
def reasons (wc whrVal ropeSkip run50m : ℚ) : List Advisory :=
  (if wc > 80 then [Advisory.waist wc] else []) ++
  (if whrVal > 9/10 then [Advisory.ratio whrVal] else []) ++
  (if ropeSkip < 100 then [Advisory.rope ropeSkip] else []) ++
  (if run50m > 10 then [Advisory.sprint run50m] else [])

/-- C2: The derived waist-to-hip ratio equals `wc / hc` whenever the hip
circumference is positive, and equals `0` when it is zero; `whr` is a
total function, so the computation never faults. -/
theorem whr_no_division_fault (wc hc : ℚ) :
    (0 < hc → whr wc hc = wc / hc) ∧ (hc = 0 → whr wc hc = 0) := by
  constructor
  · intro h
    simp [whr, ne_of_gt h]
  · intro h
    simp [whr, h]

/-- Witness for C2 at concrete inputs: hip 75 gives the quotient, hip 0
gives the fallback. -/
theorem whr_no_division_fault_witness :
    whr 65 75 = 65 / 75 ∧ whr 65 0 = 0 :=
  ⟨(whr_no_division_fault 65 75).1 (by norm_num),
   (whr_no_division_fault 65 0).2 rfl⟩

/-- C4: The displayed risk label is the high-risk string exactly when the
positive-class probability is strictly greater than `0.5`; at exactly
`0.5` the low-risk string is shown. -/
theorem risk_label_threshold (p : ℚ) :
    (statusText p = "高风险 (High Risk)" ↔ 1/2 < p) ∧
    statusText (1/2) = "低风险 (Low Risk)" := by
  constructor
  · unfold statusText
    by_cases h : 1/2 < p
    · simp [h]
    · simp [h]
  · unfold statusText
    norm_num

/-- C10: Under the form bounds (`hc ≥ 40`, `wc ≥ 40`), the `hc == 0`
fallback branch of the ratio computation is unreachable: the ratio is the
exact quotient `wc / hc` and is strictly positive, never the fallback 0. -/
theorem whr_fallback_unreachable (wc hc : ℚ) (hwc : 40 ≤ wc) (hhc : 40 ≤ hc) :
    whr wc hc = wc / hc ∧ 0 < whr wc hc ∧ whr wc hc ≠ 0 := by
  have hhc0 : (0:ℚ) < hc := lt_of_lt_of_le (by norm_num) hhc
  have hwc0 : (0:ℚ) < wc := lt_of_lt_of_le (by norm_num) hwc
  have heq : whr wc hc = wc / hc := by simp [whr, ne_of_gt hhc0]
  refine ⟨heq, ?_, ?_⟩
  · rw [heq]
    exact div_pos hwc0 hhc0
  · rw [heq]
    exact ne_of_gt (div_pos hwc0 hhc0)

/-- Witness for C10 at the example input (waist 65, hip 75). -/
theorem whr_fallback_unreachable_witness :
    whr 65 75 = 65 / 75 ∧ 0 < whr 65 75 ∧ whr 65 75 ≠ 0 :=
  whr_fallback_unreachable 65 75 (by norm_num) (by norm_num)

/-- C8 counterexample: at the example input (waist 65, hip 75) the derived
ratio is `65/75 = 0.8666...`, which is not exactly `0.867`. -/
theorem example_ratio_not_exactly_0867 : whr 65 75 ≠ 867/1000 := by
  norm_num [whr]

/-- C8 amended: at the example input the derived ratio equals `65/75 = 13/15`
(whose value rounded to three decimal places is `0.867`), and none of the
four advisories is triggered (the `reasons` list is empty). -/
theorem example_input_behavior :
    whr 65 75 = 13/15 ∧
    round ((1000 : ℚ) * whr 65 75) = 867 ∧
    reasons 65 (whr 65 75) 120 (19/2) = [] := by
  refine ⟨by norm_num [whr], ?_, by norm_num [reasons, whr] <;> decide⟩
  have h : (1000 : ℚ) * whr 65 75 = 2600/3 := by norm_num [whr]
  rw [h, round_eq]
  norm_num

/-- C3: Each advisory appears in the `reasons` list exactly when its
threshold fires (waist iff `wc > 80`, ratio iff `whr > 0.9`, jump-rope iff
`ropeSkip < 100`, sprint iff `run50m > 10`); the four conditions are
independent, so every subset of the four advisories is realisable by
inputs within the form bounds. -/
theorem advisory_thresholds (wc whrVal ropeSkip run50m : ℚ) :
    (Advisory.waist wc ∈ reasons wc whrVal ropeSkip run50m ↔ 80 < wc) ∧
    (Advisory.ratio whrVal ∈ reasons wc whrVal ropeSkip run50m ↔
      9/10 < whrVal) ∧
    (Advisory.rope ropeSkip ∈ reasons wc whrVal ropeSkip run50m ↔
      ropeSkip < 100) ∧
    (Advisory.sprint run50m ∈ reasons wc whrVal ropeSkip run50m ↔
      10 < run50m) ∧
    (∀ b₁ b₂ b₃ b₄ : Bool, ∃ wc' hc' rs' r50' : ℚ,
      (40 ≤ wc' ∧ wc' ≤ 120) ∧ (40 ≤ hc' ∧ hc' ≤ 130) ∧
      (0 ≤ rs' ∧ rs' ≤ 300) ∧ (5 ≤ r50' ∧ r50' ≤ 20) ∧
      ((Advisory.waist wc' ∈ reasons wc' (whr wc' hc') rs' r50') ↔
        b₁ = true) ∧
      ((Advisory.ratio (whr wc' hc') ∈ reasons wc' (whr wc' hc') rs' r50') ↔
        b₂ = true) ∧
      ((Advisory.rope rs' ∈ reasons wc' (whr wc' hc') rs' r50') ↔
        b₃ = true) ∧
      ((Advisory.sprint r50' ∈ reasons wc' (whr wc' hc') rs' r50') ↔
        b₄ = true)) := by
  refine ⟨?_, ?_, ?_, ?_, ?_⟩
  · by_cases h1 : wc > 80 <;> by_cases h2 : whrVal > 9/10 <;>
      by_cases h3 : ropeSkip < 100 <;> by_cases h4 : run50m > 10 <;>
      simp [reasons, h1, h2, h3, h4]
  · by_cases h1 : wc > 80 <;> by_cases h2 : whrVal > 9/10 <;>
      by_cases h3 : ropeSkip < 100 <;> by_cases h4 : run50m > 10 <;>
      simp [reasons, h1, h2, h3, h4]
  · by_cases h1 : wc > 80 <;> by_cases h2 : whrVal > 9/10 <;>
      by_cases h3 : ropeSkip < 100 <;> by_cases h4 : run50m > 10 <;>
      simp [reasons, h1, h2, h3, h4]
  · by_cases h1 : wc > 80 <;> by_cases h2 : whrVal > 9/10 <;>
      by_cases h3 : ropeSkip < 100 <;> by_cases h4 : run50m > 10 <;>
      simp [reasons, h1, h2, h3, h4]
  · intro b₁ b₂ b₃ b₄
    cases b₁ <;> cases b₂ <;> cases b₃ <;> cases b₄
    · exact ⟨65, 75, 120, 19/2, by norm_num [reasons, whr] <;> decide⟩
    · exact ⟨65, 75, 120, 12, by norm_num [reasons, whr] <;> decide⟩
    · exact ⟨65, 75, 50, 19/2, by norm_num [reasons, whr] <;> decide⟩
    · exact ⟨65, 75, 50, 12, by norm_num [reasons, whr] <;> decide⟩
    · exact ⟨65, 65, 120, 19/2, by norm_num [reasons, whr] <;> decide⟩
    · exact ⟨65, 65, 120, 12, by norm_num [reasons, whr] <;> decide⟩
    · exact ⟨65, 65, 50, 19/2, by norm_num [reasons, whr] <;> decide⟩
    · exact ⟨65, 65, 50, 12, by norm_num [reasons, whr] <;> decide⟩
    · exact ⟨81, 130, 120, 19/2, by norm_num [reasons, whr] <;> decide⟩
    · exact ⟨81, 130, 120, 12, by norm_num [reasons, whr] <;> decide⟩
    · exact ⟨81, 130, 50, 19/2, by norm_num [reasons, whr] <;> decide⟩
    · exact ⟨81, 130, 50, 12, by norm_num [reasons, whr] <;> decide⟩
    · exact ⟨81, 85, 120, 19/2, by norm_num [reasons, whr] <;> decide⟩
    · exact ⟨81, 85, 120, 12, by norm_num [reasons, whr] <;> decide⟩
    · exact ⟨81, 85, 50, 19/2, by norm_num [reasons, whr] <;> decide⟩
    · exact ⟨81, 85, 50, 12, by norm_num [reasons, whr] <;> decide⟩

/-- Column lookup is invariant under reordering of the row, provided the
row has no duplicate column names. -/
theorem findVal_perm {l₁ l₂ : List (String × ℚ)} (h : l₁.Perm l₂)
    (nd : (l₁.map Prod.fst).Nodup) (k : String) :
    findVal k l₁ = findVal k l₂ := by
  induction h with
  | nil => rfl
  | cons a h ih =>
    obtain ⟨k', v⟩ := a
    simp only [List.map_cons, List.nodup_cons] at nd
    by_cases hk : k' = k
    · simp [findVal, hk]
    · simp only [findVal, hk, if_false]
      exact ih nd.2
  | swap a b t =>
    obtain ⟨ka, va⟩ := a
    obtain ⟨kb, vb⟩ := b
    simp only [List.map_cons, List.nodup_cons, List.mem_cons] at nd
    have hne : kb ≠ ka := fun hE => nd.1 (Or.inl hE)
    by_cases hb : kb = k
    · have hA : ka ≠ k := fun hE => hne (hb.trans hE.symm)
      simp [findVal, hb, hA]
    · by_cases ha : ka = k
      · simp [findVal, hb, ha]
      · simp [findVal, hb, ha]
  | trans h₁ h₂ ih₁ ih₂ =>
    have nd₂ := (h₁.map Prod.fst).nodup nd
    exact (ih₁ nd).trans (ih₂ nd₂)

/-- Reindexing is invariant under reordering of the row when column names
are unique. -/
theorem reindex_perm {l₁ l₂ : List (String × ℚ)} (h : l₁.Perm l₂)
    (nd : (l₁.map Prod.fst).Nodup) (cols : List String) :
    reindex cols l₁ = reindex cols l₂ := by
  induction cols with
  | nil => rfl
  | cons c cs ih =>
    simp only [reindex, findVal_perm h nd c, ih]

/-- A successful reindex produces a record whose column names are exactly
the requested list, in order. -/
theorem reindex_cols {cols : List String} {row r : List (String × ℚ)}
    (h : reindex cols row = some r) : r.map Prod.fst = cols := by
  induction cols generalizing r with
  | nil =>
    simp only [reindex, Option.some.injEq] at h
    simp [← h]
  | cons c cs ih =>
    simp only [reindex] at h
    cases hf : findVal c row with
    | none => rw [hf] at h; exact absurd h (by simp)
    | some v =>
      rw [hf] at h
      cases hr : reindex cs row with
      | none => rw [hr] at h; exact absurd h (by simp)
      | some rest =>
        rw [hr] at h
        simp only [Option.some.injEq] at h
        simp [← h, ih hr]

/-- C1: However the single-row record is assembled (any insertion order
`row'` that is a permutation of the documented record `row`, with unique
column names), a successful reindex by the reference column list yields a
record whose columns are exactly the reference list, in order, and the
result does not depend on the insertion order. -/
theorem scaler_input_column_order (cols : List String)
    (row row' r : List (String × ℚ)) (hperm : row.Perm row')
    (hnd : (row.map Prod.fst).Nodup)
    (h : reindex cols row' = some r) :
    r.map Prod.fst = cols ∧ reindex cols row = some r :=
  ⟨reindex_cols h, (reindex_perm hperm hnd cols).trans h⟩

/-- The example record, assembled in the documented insertion order. -/
def exRow : List (String × ℚ) :=
  dataRecord 10 120 (2/5) (19/2) 75 1 65 (whr 65 75) 70

/-- The example record assembled in a different insertion order (first two
fields swapped). -/
def exRowSwapped : List (String × ℚ) :=
  [("RopeSkip", 120), ("Age", 10), ("Reaction", 2/5), ("Run50m", 19/2),
   ("HC", 75), ("Gender", 1), ("WC", 65), ("WHR", whr 65 75), ("CC", 70)]

/-- Witness for C1: reindexing the swapped example record by the training
column order recovers the record in exactly the reference order. -/
theorem scaler_input_column_order_witness :
    exRow.map Prod.fst = trainCols ∧ reindex trainCols exRow = some exRow :=
  scaler_input_column_order trainCols exRow exRowSwapped exRow
    (by unfold exRow exRowSwapped dataRecord; exact List.Perm.swap _ _ _)
    (by decide)
    (by simp [reindex, findVal, trainCols, exRow, exRowSwapped, dataRecord])

/-- A Streamlit `st.number_input` widget only ever returns a value inside
`[min_value, max_value]`; the widget (an external collaborator) is
modelled as clamping the raw entry to its bounds. -/
def numberInput (lo hi x : ℚ) : ℚ := max lo (min hi x)

/-- Raw user entries, before the widgets constrain them. -/
structure RawForm where
  genderBoy : Bool
  age : ℚ
  wc : ℚ
  hc : ℚ
  cc : ℚ
  ropeSkip : ℚ
  reaction : ℚ
  run50m : ℚ

/-- The values a submission of the form delivers to the handler. -/
structure FormInput where
  gender : ℚ
  age : ℚ
  wc : ℚ
  hc : ℚ
  cc : ℚ
  ropeSkip : ℚ
  reaction : ℚ
  run50m : ℚ

/-- The `main_input_form` of AI.py lines 79-111: gender comes from the
selectbox over options `[1, 0]` (line 84), the seven numeric widgets carry
the bounds declared on lines 86-107. -/
def main_input_form (r : RawForm) : FormInput where
  gender := if r.genderBoy then 1 else 0
  age := numberInput 6 18 r.age
  wc := numberInput 40 120 r.wc
  hc := numberInput 40 130 r.hc
  cc := numberInput 40 120 r.cc
  ropeSkip := numberInput 0 300 r.ropeSkip
  reaction := numberInput 0 5 r.reaction
  run50m := numberInput 5 20 r.run50m

/-- A clamped widget value lies within its declared bounds. -/
theorem numberInput_mem (lo hi x : ℚ) (h : lo ≤ hi) :
    lo ≤ numberInput lo hi x ∧ numberInput lo hi x ≤ hi :=
  ⟨le_max_left _ _, max_le h (min_le_left _ _)⟩

/-- C9: Every value accepted from the form lies within its stated bounds:
gender is 0 or 1, age in [6, 18], waist in [40, 120], hip in [40, 130],
chest in [40, 120], jump-rope count in [0, 300], reaction time in [0, 5],
and 50m sprint time in [5, 20]. -/
theorem form_values_within_bounds (r : RawForm) :
    ((main_input_form r).gender = 0 ∨ (main_input_form r).gender = 1) ∧
    (6 ≤ (main_input_form r).age ∧ (main_input_form r).age ≤ 18) ∧
    (40 ≤ (main_input_form r).wc ∧ (main_input_form r).wc ≤ 120) ∧
    (40 ≤ (main_input_form r).hc ∧ (main_input_form r).hc ≤ 130) ∧
    (40 ≤ (main_input_form r).cc ∧ (main_input_form r).cc ≤ 120) ∧
    (0 ≤ (main_input_form r).ropeSkip ∧ (main_input_form r).ropeSkip ≤ 300) ∧
    (0 ≤ (main_input_form r).reaction ∧ (main_input_form r).reaction ≤ 5) ∧
    (5 ≤ (main_input_form r).run50m ∧ (main_input_form r).run50m ≤ 20) := by
  refine ⟨?_, ?_, ?_, ?_, ?_, ?_, ?_, ?_⟩
  · cases hb : r.genderBoy <;> simp [main_input_form, hb]
  · exact numberInput_mem 6 18 r.age (by norm_num)
  · exact numberInput_mem 40 120 r.wc (by norm_num)
  · exact numberInput_mem 40 130 r.hc (by norm_num)
  · exact numberInput_mem 40 120 r.cc (by norm_num)
  · exact numberInput_mem 0 300 r.ropeSkip (by norm_num)
  · exact numberInput_mem 0 5 r.reaction (by norm_num)
  · exact numberInput_mem 5 20 r.run50m (by norm_num)

/-- `prob = model.predict_proba(input_scaled)[0][1]` (AI.py line 144):
take the first row of the probability matrix and its second entry;
out-of-range indexing is the `IndexError` the `except` block reports. -/
def extractProb (probs : List (List ℚ)) : Except String ℚ :=
  match probs with
  | [] => Except.error "IndexError: index 0 is out of bounds"
  | row :: _ =>
    match row.get? 1 with
    | some p => Except.ok p
    | none => Except.error "IndexError: index 1 is out of bounds"

/-- C6: If the classifier returns a probability-distribution row (entries
nonnegative, summing to 1), the extracted positive-class probability lies
in the closed interval [0, 1], and the rendered percentage is that
probability times 100. -/
theorem risk_probability_unit_interval (row : List ℚ) (p : ℚ)
    (hnn : ∀ x ∈ row, 0 ≤ x) (hsum : row.sum = 1)
    (hp : extractProb [row] = Except.ok p) :
    0 ≤ p ∧ p ≤ 1 ∧ riskPercent p = p * 100 := by
  have hmem : p ∈ row := by
    have hp' : (match row.get? 1 with
      | some q => Except.ok q
      | none => (Except.error "IndexError: index 1 is out of bounds" :
          Except String ℚ)) = Except.ok p := hp
    cases hg : row.get? 1 with
    | none => rw [hg] at hp'; exact absurd hp' (by simp)
    | some q =>
      rw [hg] at hp'
      simp only [Except.ok.injEq] at hp'
      exact hp' ▸ List.get?_mem hg
  exact ⟨hnn p hmem, hsum ▸ List.single_le_sum hnn p hmem, rfl⟩

/-- Witness for C6 with the distribution row [0.3, 0.7]. -/
theorem risk_probability_unit_interval_witness :
    0 ≤ (7/10 : ℚ) ∧ (7/10 : ℚ) ≤ 1 ∧ riskPercent (7/10) = 7/10 * 100 :=
  risk_probability_unit_interval [3/10, 7/10] (7/10)
    (by norm_num) (by norm_num) rfl

/-- The cached assets returned by `load_assets` (AI.py line 42): the
deserialised scaler and model are opaque callables, kept abstract as the
fallible functions the script invokes on them (`scaler.transform`,
`model.predict_proba`); `expectedCols` is the header of
`ready_train.csv`. -/
structure Assets where
  scalerTransform : List ℚ → Except String (List ℚ)
  predictProba : List ℚ → Except String (List (List ℚ))
  expectedCols : List String

/-- The submission handler (AI.py lines 119-148): derive WHR, assemble the
record, align its columns to `expected_cols` (a `KeyError` here is shown
by the framework and aborts the run), then the `try` block of lines
142-145: scale, predict, extract the positive-class probability.  Any
failure aborts the submission with the error message. -/
def runInference (a : Assets) (f : FormInput) : Except String ℚ :=
  let whrVal := whr f.wc f.hc
  let row := dataRecord f.age f.ropeSkip f.reaction f.run50m f.hc f.gender
    f.wc whrVal f.cc
  match reindex a.expectedCols row with
  | none => Except.error "KeyError: columns not in index"
  | some aligned =>
    match a.scalerTransform (aligned.map Prod.snd) with
    | Except.error e => Except.error e
    | Except.ok scaled =>
      match a.predictProba scaled with
      | Except.error e => Except.error e
      | Except.ok probs => extractProb probs

/-- What one submission displays. -/
inductive Outcome where
  | rendered (riskPct : ℚ) (label : String)
  | errorReported (msg : String)
deriving DecidableEq, Repr

/-- One submission step: the result shown for this submission, paired with
the assets available afterwards.  The script never rebinds `model`,
`scaler` or `expected_cols` (they are the cached values of line 42), so
the assets component passes through unchanged. -/
def processSubmission (a : Assets) (f : FormInput) : Assets × Outcome :=
  match runInference a f with
  | Except.error e => (a, Outcome.errorReported e)
  | Except.ok p => (a, Outcome.rendered (riskPercent p) (statusText p))

/-- C5: Any inference-time failure (column mismatch, scaler failure,
classifier failure, bad probability shape) is reported to the user as an
error message for that submission, and the loaded model, scaler and
column list are unchanged afterwards, ready for the next attempt. -/
theorem inference_failure_isolated (a : Assets) (f : FormInput) (e : String)
    (h : runInference a f = Except.error e) :
    (processSubmission a f).2 = Outcome.errorReported e ∧
    (processSubmission a f).1 = a := by
  simp [processSubmission, h]

/-- Assets whose expected column list does not match the assembled record
(the reference CSV asks for a `BMI` column the record lacks). -/
def badAssets : Assets where
  scalerTransform := fun xs => Except.ok xs
  predictProba := fun _ => Except.ok [[1/2, 1/2]]
  expectedCols := ["Age", "BMI"]

/-- The example submission values. -/
def exForm : FormInput where
  gender := 1
  age := 10
  wc := 65
  hc := 75
  cc := 70
  ropeSkip := 120
  reaction := 2/5
  run50m := 19/2

/-- Witness for C5: a column mismatch is reported as an error and the
assets survive unchanged. -/
theorem inference_failure_isolated_witness :
    (processSubmission badAssets exForm).2 =
      Outcome.errorReported "KeyError: columns not in index" ∧
    (processSubmission badAssets exForm).1 = badAssets :=
  inference_failure_isolated badAssets exForm
    "KeyError: columns not in index" rfl

/-- The startup environment: the three fallible loads performed inside
`load_assets` (AI.py lines 30-34), kept abstract.  Loading the model
yields its `predict_proba` callable, loading the scaler yields its
`transform` callable, and reading the CSV yields its header. -/
structure LoadEnv where
  loadModel : Except String (List ℚ → Except String (List (List ℚ)))
  loadScaler : Except String (List ℚ → Except String (List ℚ))
  readHeader : Except String (List String)

/-- `load_assets` (AI.py lines 21-39): perform the three loads in order;
the surrounding `try` propagates the first failure. -/
def load_assets (env : LoadEnv) : Except String Assets :=
  match env.loadModel with
  | Except.error e => Except.error e
  | Except.ok m =>
    match env.loadScaler with
    | Except.error e => Except.error e
    | Except.ok s =>
      match env.readHeader with
      | Except.error e => Except.error e
      | Except.ok cols => Except.ok ⟨s, m, cols⟩

/-- The diagnostic `st.error` renders on load failure (AI.py line 38),
with the caught exception text interpolated. -/
def loadErrorMsg (e : String) : String :=
  "严重错误：加载模型文件失败。报错信息: " ++ e

/-- The page state after the startup section: either halted at
`st.stop()` (line 39) with the diagnostic shown, or running with the
assets bound and the form rendered (line 42 onwards). -/
inductive AppState where
  | halted (diagnostic : String)
  | running (a : Assets)

/-- Startup (AI.py line 42): bind the assets or halt. -/
def startApp (env : LoadEnv) : AppState :=
  match load_assets env with
  | Except.error e => AppState.halted (loadErrorMsg e)
  | Except.ok a => AppState.running a

/-- If any of the three loads fails, `load_assets` fails. -/
theorem load_assets_error_of_any (env : LoadEnv)
    (h : (∃ e, env.loadModel = Except.error e) ∨
      (∃ e, env.loadScaler = Except.error e) ∨
      (∃ e, env.readHeader = Except.error e)) :
    ∃ e, load_assets env = Except.error e := by
  unfold load_assets
  cases hm : env.loadModel with
  | error e => exact ⟨e, rfl⟩
  | ok m =>
    cases hs : env.loadScaler with
    | error e => exact ⟨e, rfl⟩
    | ok s =>
      cases hh : env.readHeader with
      | error e => exact ⟨e, rfl⟩
      | ok cols =>
        rcases h with ⟨e, he⟩ | ⟨e, he⟩ | ⟨e, he⟩ <;> simp_all

/-- C7: If loading any of the three startup assets (classifier, scaler,
reference CSV) fails, the application halts at startup with the visible
diagnostic message and never reaches the running state that renders the
form and accepts submissions. -/
theorem startup_failure_halts (env : LoadEnv)
    (h : (∃ e, env.loadModel = Except.error e) ∨
      (∃ e, env.loadScaler = Except.error e) ∨
      (∃ e, env.readHeader = Except.error e)) :
    ∃ e, startApp env = AppState.halted (loadErrorMsg e) ∧
      ∀ a, startApp env ≠ AppState.running a := by
  obtain ⟨e, he⟩ := load_assets_error_of_any env h
  exact ⟨e, by simp [startApp, he], fun a => by simp [startApp, he]⟩

/-- A startup environment in which loading the model file fails. -/
def failEnv : LoadEnv where
  loadModel := Except.error "FileNotFoundError"
  loadScaler := Except.ok (fun xs => Except.ok xs)
  readHeader := Except.ok trainCols

/-- Witness for C7: with a missing model file, startup halts with the
diagnostic and never runs. -/
theorem startup_failure_halts_witness :
    ∃ e, startApp failEnv = AppState.halted (loadErrorMsg e) ∧
      ∀ a, startApp failEnv ≠ AppState.running a :=
  startup_failure_halts failEnv (Or.inl ⟨"FileNotFoundError", rfl⟩)

end ObesityTool
